import Mathlib

/-
Verification of the session facade of the gdk Electrum wallet backend
(subprojects/gdk_rust/gdk_electrum/src/session.rs): endpoint resolution,
command dispatch, uniform error translation and session construction.

The dispatcher and its helper functions are embedded directly from the
source. External collaborators (the typed session operations, the serde
deserializers, the error taxonomy defined outside this file's scope) are
modelled as parameters of the dispatcher or, where the specification fixes
their behaviour, as definitions marked "Modelled from the spec".
-/

set_option autoImplicit false

namespace Gdk

/-- JSON values, modelling serde_json's Value type. Numbers are modelled as
integers; the only numeric access the dispatcher performs is as_u64. -/
inductive JValue where
  | null
  | bool (b : Bool)
  | num (n : Int)
  | str (s : String)
  | arr (elems : List JValue)
  | obj (fields : List (String × JValue))

/-- Lookup of a key in a JSON object's field list (first match wins, as in a
serde_json map, whose keys are unique). -/
def getKey : List (String × JValue) → String → Option JValue
  | [], _ => none
  | (k, v) :: rest, key => if k = key then some v else getKey rest key

/-- Insert-or-replace of a key in a JSON object's field list, as performed by
serde_json map insertion through index assignment. -/
def insertKey : List (String × JValue) → String → JValue → List (String × JValue)
  | [], key, x => [(key, x)]
  | (k, v) :: rest, key, x =>
    if k = key then (key, x) :: rest else (k, v) :: insertKey rest key x

/-- Shared (read) indexing `value[key]`: serde_json returns Null for a missing
key and for indexing into a non-object. -/
def JValue.getIdx (v : JValue) (key : String) : JValue :=
  match v with
  | .obj fields => (getKey fields key).getD .null
  | _ => .null

/-- Mutable indexing `value[key] = x`: serde_json inserts or replaces the key
of an object, and turns Null into a fresh one-entry object. (On any other
variant the original program panics; that branch is unreachable in the uses
below, which are guarded by a successful struct deserialization.) -/
def JValue.setIdx (v : JValue) (key : String) (x : JValue) : JValue :=
  match v with
  | .obj fields => .obj (insertKey fields key x)
  | .null => .obj [(key, x)]
  | other => other

/-- as_str: Some exactly on JSON strings. -/
def JValue.asStr : JValue → Option String
  | .str s => some s
  | _ => none

/-- as_u64: Some exactly on numbers representable as an unsigned 64-bit
integer. -/
def JValue.asU64 : JValue → Option Nat
  | .num n => if 0 ≤ n ∧ n < (2 : Int) ^ 64 then some n.toNat else none
  | _ => none

/-- Modelled from the spec: the internal error taxonomy (crate error type,
defined outside the dispatcher file). It has the two variants the dispatcher
constructs directly — Generic (used for configuration and raw-field
validation failures) and MethodNotFound carrying the method string — plus
representative domain-error kinds raised by collaborators (the spec names
insufficient funds and invalid fee as transaction-construction failures). -/
inductive Error where
  | Generic (message : String)
  | MethodNotFound (method : String) (in_session : Bool)
  | InsufficientFunds
  | InvalidFee
deriving DecidableEq

/-- The constructor tag of an error value: its kind, forgetting payloads. -/
inductive ErrorKind where
  | generic
  | methodNotFound
  | insufficientFunds
  | invalidFee
deriving DecidableEq

def Error.kind : Error → ErrorKind
  | .Generic _ => .generic
  | .MethodNotFound _ _ => .methodNotFound
  | .InsufficientFunds => .insufficientFunds
  | .InvalidFee => .invalidFee

/-- Modelled from the spec: to_gdk_code maps every error kind to exactly one
stable machine-readable code (section 4.4 of the spec). -/
def Error.to_gdk_code : Error → String
  | .Generic _ => "id_unknown"
  | .MethodNotFound _ _ => "id_method_not_found"
  | .InsufficientFunds => "id_insufficient_funds"
  | .InvalidFee => "id_invalid_fee"

/-- Modelled from the spec: the Display rendering of an error, a
human-readable message; for MethodNotFound it carries the method string. -/
def Error.message : Error → String
  | .Generic m => m
  | .MethodNotFound m _ => "method not found: " ++ m
  | .InsufficientFunds => "insufficient funds"
  | .InvalidFee => "invalid fee"

/-- The wire error record: a human-readable message plus a stable
machine-readable code (gdk_common JsonError). -/
structure JsonError where
  message : String
  error : String
deriving DecidableEq

/-- Modelled from the spec: JsonError::new keeps the given human message and
fills in the generic code. -/
def JsonError.new (message : String) : JsonError :=
  { message := message, error := "id_unknown" }

/-- impl From Error for JsonError (session.rs lines 225-232): message from
Display, code from to_gdk_code. -/
def jsonErrorOfError (e : Error) : JsonError :=
  { message := e.message, error := e.to_gdk_code }

/-- map_err into the wire error type, as done at the dispatcher boundary. -/
def intoJsonError {α : Type} : Except Error α → Except JsonError α
  | .ok a => .ok a
  | .error e => .error (jsonErrorOfError e)

/-- The network configuration fields consumed by this file (gdk_common
NetworkParameters, consumed read-only; all of these are optional there). -/
structure NetworkParameters where
  use_tor : Option Bool
  electrum_onion_url : Option String
  electrum_url : Option String
  electrum_tls : Option Bool
  validate_domain : Option Bool
  proxy : Option String

/-- The resolved connection target (interface ElectrumUrl). -/
inductive ElectrumUrl where
  | Plaintext (url : String)
  | Tls (url : String) (validate_domain : Bool)
deriving DecidableEq

/-- The fallthrough of determine_electrum_url once the tor/onion early return
did not fire (session.rs lines 210-222). -/
def electrumUrlFallback (network : NetworkParameters) : Except Error ElectrumUrl :=
  match network.electrum_url with
  | none => .error (.Generic "network url is missing")
  | some electrum_url =>
    if electrum_url = "" then
      .error (.Generic "network url is empty")
    else if network.electrum_tls.getD false then
      .ok (.Tls electrum_url (network.validate_domain.getD false))
    else
      .ok (.Plaintext electrum_url)

/-- determine_electrum_url (session.rs lines 202-223): the tor/onion early
return, then the plain-url fallthrough. -/
def determine_electrum_url (network : NetworkParameters) : Except Error ElectrumUrl :=
  if network.use_tor = some true then
    match network.electrum_onion_url with
    | some electrum_onion_url =>
      if ¬ electrum_onion_url.isEmpty then
        .ok (.Plaintext electrum_onion_url)
      else
        electrumUrlFallback network
    | none => electrumUrlFallback network
  else
    electrumUrlFallback network

/-- External account state held in the registry (out of scope; never
inspected by the dispatcher itself). -/
inductive Account where
  | external

/-- External notifier handle (gdk_common NativeNotif; out of scope). -/
inductive NativeNotif where
  | external

/-- NativeNotif::new(). -/
def NativeNotif.new : NativeNotif := .external

/-- External persistent store handle (out of scope). -/
inductive Store where
  | external

/-- External master extended public key (out of scope). -/
inductive Xpub where
  | external

/-- External master extended private key (out of scope). -/
inductive Xprv where
  | external

/-- Background worker handle (out of scope). -/
inductive JoinHandle where
  | external

/-- An outpoint: a transaction id plus an output index (gdk_common BEOutPoint
as described by the spec's data model). -/
structure BEOutPoint where
  txid : String
  vout : Nat
deriving DecidableEq

/-- The session aggregate (ElectrumSession). The account registry HashMap is
modelled as an association list keyed by the subaccount index, the HashSet of
recently spent outpoints as a list, and the AtomicBool flags as plain
booleans (single-request dispatch; concurrency is out of the embedding's
scope). -/
structure ElectrumSession where
  proxy : Option String
  network : NetworkParameters
  url : ElectrumUrl
  accounts : List (Nat × Account)
  notify : NativeNotif
  handles : List JoinHandle
  user_wants_to_sync : Bool
  last_network_call_succeeded : Bool
  timeout : Option Nat
  store : Option Store
  master_xpub : Option Xpub
  master_xprv : Option Xprv
  recent_spent_utxos : List BEOutPoint

/-- Session::new for ElectrumSession (session.rs lines 18-36): resolve the
endpoint (propagating a resolution failure through the From conversion of
the question-mark operator) and build the fresh session state. socksify is
defined in the crate root, outside this file's scope, so it is passed as a
parameter. -/
def ElectrumSession.new (socksify : Option String → Option String)
    (network_parameters : NetworkParameters) : Except JsonError ElectrumSession :=
  match determine_electrum_url network_parameters with
  | .error e => .error (jsonErrorOfError e)
  | .ok url =>
    .ok {
      proxy := socksify network_parameters.proxy
      network := network_parameters
      url := url
      accounts := []
      notify := NativeNotif.new
      handles := []
      user_wants_to_sync := false
      last_network_call_succeeded := false
      timeout := none
      store := none
      master_xpub := none
      master_xprv := none
      recent_spent_utxos := []
    }

/-- A fee estimate entry (gdk_common FeeEstimate, a u64 fee rate; outside
this file's scope, modelled from the spec's "fee-rate entry"). -/
def FeeEstimate := Nat

/-- Serialization of a fee estimate entry. -/
def FeeEstimate.toValue (e : FeeEstimate) : JValue := .num (Int.ofNat e)

/-- TxsResult (gdk_common): a list of already-serialized transactions. -/
def TxsResult := List JValue

/-- txs_result_value (session.rs lines 250-252). -/
def txs_result_value (txs : TxsResult) : JValue := .arr txs

/-- The external collaborators the dispatcher invokes: the typed session
operations of ElectrumSession defined outside session.rs, with the serde
deserialization/serialization of their typed requests and results absorbed
into them (both are external to this file's scope; the spec treats them as
collaborators specified only by their interface). Operations take the
session state and return it possibly updated, mirroring receivers that are
mutable references. CreateTx and TxCreateResult are the opaque typed shapes
of create_transaction's request and result. -/
structure Collaborators (CreateTx TxCreateResult : Type) where
  poll_session : ElectrumSession → Except JsonError JValue × ElectrumSession
  connect : ElectrumSession → JValue → Except JsonError JValue × ElectrumSession
  disconnect : ElectrumSession → Except JsonError JValue × ElectrumSession
  login : ElectrumSession → JValue → Except JsonError JValue × ElectrumSession
  credentials_from_pin_data :
    ElectrumSession → JValue → Except JsonError JValue × ElectrumSession
  encrypt_with_pin : ElectrumSession → JValue → Except JsonError JValue × ElectrumSession
  get_block_height : ElectrumSession → Except JsonError JValue × ElectrumSession
  get_subaccount_nums : ElectrumSession → Except JsonError JValue × ElectrumSession
  get_subaccounts : ElectrumSession → Except JsonError JValue × ElectrumSession
  get_subaccount : ElectrumSession → Nat → Except Error JValue
  discover_subaccount : ElectrumSession → JValue → Except JsonError JValue × ElectrumSession
  get_subaccount_root_path :
    ElectrumSession → JValue → Except JsonError JValue × ElectrumSession
  get_subaccount_xpub : ElectrumSession → JValue → Except JsonError JValue × ElectrumSession
  create_subaccount : ElectrumSession → JValue → Except JsonError JValue × ElectrumSession
  get_next_subaccount : ElectrumSession → JValue → Except JsonError JValue × ElectrumSession
  rename_subaccount : ElectrumSession → JValue → Except JsonError JValue × ElectrumSession
  set_subaccount_hidden :
    ElectrumSession → JValue → Except JsonError JValue × ElectrumSession
  update_subaccount : ElectrumSession → JValue → Except JsonError JValue × ElectrumSession
  get_transactions : ElectrumSession → JValue → Except JsonError TxsResult × ElectrumSession
  get_transaction_hex : ElectrumSession → String → Except Error String
  get_transaction_details :
    ElectrumSession → String → Except Error JValue × ElectrumSession
  get_balance : ElectrumSession → JValue → Except JsonError JValue × ElectrumSession
  set_transaction_memo : ElectrumSession → String → String → Except Error Bool
  parse_create_transaction : JValue → Except Error CreateTx
  create_transaction :
    ElectrumSession → CreateTx → Except Error TxCreateResult × ElectrumSession
  tx_create_result_to_value : TxCreateResult → JValue
  sign_transaction : ElectrumSession → JValue → Except JsonError JValue × ElectrumSession
  send_transaction : ElectrumSession → JValue → Except JsonError JValue × ElectrumSession
  broadcast_transaction : ElectrumSession → String → Except Error JValue × ElectrumSession
  get_receive_address : ElectrumSession → JValue → Except JsonError JValue × ElectrumSession
  get_previous_addresses :
    ElectrumSession → JValue → Except JsonError JValue × ElectrumSession
  get_fee_estimates :
    ElectrumSession → Except Error (List FeeEstimate) × ElectrumSession
  get_settings : ElectrumSession → Except JsonError JValue × ElectrumSession
  get_available_currencies : ElectrumSession → Except JsonError JValue × ElectrumSession
  change_settings : ElectrumSession → JValue → Except JsonError JValue × ElectrumSession
  get_unspent_outputs : ElectrumSession → JValue → Except JsonError JValue × ElectrumSession
  load_store : ElectrumSession → JValue → Except JsonError JValue × ElectrumSession
  get_master_blinding_key : ElectrumSession → Except JsonError JValue × ElectrumSession
  set_master_blinding_key :
    ElectrumSession → JValue → Except JsonError JValue × ElectrumSession
  start_threads : ElectrumSession → Except JsonError JValue × ElectrumSession
  get_wallet_hash_id : ElectrumSession → Except JsonError JValue × ElectrumSession
  remove_account : ElectrumSession → Except JsonError JValue × ElectrumSession

section Dispatch

variable {CreateTx TxCreateResult : Type}

/-- get_subaccount helper (session.rs lines 233-239): read the raw
"subaccount" field as a u64 or fail, then look up the registry at the index
truncated to u32 (the `as u32` cast). -/
def get_subaccount (c : Collaborators CreateTx TxCreateResult)
    (session : ElectrumSession) (input : JValue) : Except Error JValue :=
  match (input.getIdx "subaccount").asU64 with
  | none => .error (.Generic "get_subaccount: index argument not found")
  | some index => c.get_subaccount session (index % 2 ^ 32)

/-- get_transaction_hex helper (session.rs lines 241-248). -/
def get_transaction_hex (c : Collaborators CreateTx TxCreateResult)
    (session : ElectrumSession) (input : JValue) : Except Error String :=
  match input.asStr with
  | none => .error (.Generic "get_transaction_hex: input is not a string")
  | some txid => c.get_transaction_hex session txid

/-- create_transaction helper (session.rs lines 254-269): deserialize the
spec, attempt construction; on failure return Ok echoing the input with an
added "error" field holding the stable gdk code, on success return the
serialized constructed transaction. -/
def create_transaction (c : Collaborators CreateTx TxCreateResult)
    (session : ElectrumSession) (input : JValue) :
    Except Error JValue × ElectrumSession :=
  match c.parse_create_transaction input with
  | .error e => (.error e, session)
  | .ok create_tx =>
    match c.create_transaction session create_tx with
    | (.error err, session₂) =>
      (.ok (input.setIdx "error" (.str err.to_gdk_code)), session₂)
    | (.ok v, session₂) => (.ok (c.tx_create_result_to_value v), session₂)

/-- set_transaction_memo helper (session.rs lines 271-282): raw-field
validation of "txid" then "memo", then the collaborator call. -/
def set_transaction_memo (c : Collaborators CreateTx TxCreateResult)
    (session : ElectrumSession) (input : JValue) : Except JsonError JValue :=
  match (input.getIdx "txid").asStr with
  | none => .error (JsonError.new "set_transaction_memo: missing txid")
  | some txid =>
    match (input.getIdx "memo").asStr with
    | none => .error (JsonError.new "set_transaction_memo: missing memo")
    | some memo =>
      match c.set_transaction_memo session txid memo with
      | .ok v => .ok (.bool v)
      | .error e => .error (jsonErrorOfError e)

/-- fee_estimate_values (session.rs lines 284-291): reject an empty list,
otherwise wrap the serialized list in a "fees" object. -/
def fee_estimate_values (estimates : List FeeEstimate) : Except JsonError JValue :=
  if estimates.isEmpty then
    .error (JsonError.new "Expected at least one feerate")
  else
    .ok (.obj [("fees", .arr (estimates.map FeeEstimate.toValue))])

/-- handle_call (session.rs lines 46-199): the command dispatcher. Each
recognized method invokes its collaborator (typed deserialization and
serialization absorbed into the collaborator where the typed shapes are
external), with the helper functions above inlined exactly where the source
calls them; an unrecognized method is a MethodNotFound error carrying the
method string. The logging on get_receive_address has no effect on the
returned value and is omitted. -/
def handle_call (c : Collaborators CreateTx TxCreateResult)
    (s : ElectrumSession) (method : String) (input : JValue) :
    Except JsonError JValue × ElectrumSession :=
  match method with
  | "poll_session" => c.poll_session s
  | "connect" => c.connect s input
  | "disconnect" => c.disconnect s
  | "login" => c.login s input
  | "credentials_from_pin_data" => c.credentials_from_pin_data s input
  | "encrypt_with_pin" => c.encrypt_with_pin s input
  | "get_block_height" => c.get_block_height s
  | "get_subaccount_nums" => c.get_subaccount_nums s
  | "get_subaccounts" => c.get_subaccounts s
  | "get_subaccount" => (intoJsonError (get_subaccount c s input), s)
  | "discover_subaccount" => c.discover_subaccount s input
  | "get_subaccount_root_path" => c.get_subaccount_root_path s input
  | "get_subaccount_xpub" => c.get_subaccount_xpub s input
  | "create_subaccount" => c.create_subaccount s input
  | "get_next_subaccount" => c.get_next_subaccount s input
  | "rename_subaccount" => c.rename_subaccount s input
  | "set_subaccount_hidden" => c.set_subaccount_hidden s input
  | "update_subaccount" => c.update_subaccount s input
  | "get_transactions" =>
    match c.get_transactions s input with
    | (.ok txs, s₂) => (.ok (txs_result_value txs), s₂)
    | (.error e, s₂) => (.error e, s₂)
  | "get_transaction_hex" =>
    (intoJsonError ((get_transaction_hex c s input).map JValue.str), s)
  | "get_transaction_details" =>
    match input.asStr with
    | none =>
      (.error (jsonErrorOfError
        (.Generic "get_transaction_details: input is not a string")), s)
    | some txid =>
      match c.get_transaction_details s txid with
      | (.ok v, s₂) => (.ok v, s₂)
      | (.error e, s₂) => (.error (jsonErrorOfError e), s₂)
  | "get_balance" => c.get_balance s input
  | "set_transaction_memo" => (set_transaction_memo c s input, s)
  | "create_transaction" =>
    match create_transaction c s input with
    | (r, s₂) => (intoJsonError r, s₂)
  | "sign_transaction" => c.sign_transaction s input
  | "send_transaction" => c.send_transaction s input
  | "broadcast_transaction" =>
    match input.asStr with
    | none =>
      (.error (jsonErrorOfError
        (.Generic "broadcast_transaction: input not a string")), s)
    | some tx_hex =>
      match c.broadcast_transaction s tx_hex with
      | (.ok v, s₂) => (.ok v, s₂)
      | (.error e, s₂) => (.error (jsonErrorOfError e), s₂)
  | "get_receive_address" => c.get_receive_address s input
  | "get_previous_addresses" => c.get_previous_addresses s input
  | "get_fee_estimates" =>
    match c.get_fee_estimates s with
    | (.ok x, s₂) => (fee_estimate_values x, s₂)
    | (.error e, s₂) => (.error (jsonErrorOfError e), s₂)
  | "get_settings" => c.get_settings s
  | "get_available_currencies" => c.get_available_currencies s
  | "change_settings" => c.change_settings s input
  | "get_unspent_outputs" => c.get_unspent_outputs s input
  | "load_store" => c.load_store s input
  | "get_master_blinding_key" => c.get_master_blinding_key s
  | "set_master_blinding_key" => c.set_master_blinding_key s input
  | "start_threads" => c.start_threads s
  | "get_wallet_hash_id" => c.get_wallet_hash_id s
  | "remove_account" => c.remove_account s
  | _ => (.error (jsonErrorOfError (.MethodNotFound method true)), s)

end Dispatch

/-- The dispatcher's fixed table of supported method names, exactly the
match arms of handle_call. -/
def supportedMethods : List String :=
  ["poll_session", "connect", "disconnect", "login", "credentials_from_pin_data",
   "encrypt_with_pin", "get_block_height", "get_subaccount_nums", "get_subaccounts",
   "get_subaccount", "discover_subaccount", "get_subaccount_root_path",
   "get_subaccount_xpub", "create_subaccount", "get_next_subaccount",
   "rename_subaccount", "set_subaccount_hidden", "update_subaccount",
   "get_transactions", "get_transaction_hex", "get_transaction_details",
   "get_balance", "set_transaction_memo", "create_transaction", "sign_transaction",
   "send_transaction", "broadcast_transaction", "get_receive_address",
   "get_previous_addresses", "get_fee_estimates", "get_settings",
   "get_available_currencies", "change_settings", "get_unspent_outputs",
   "load_store", "get_master_blinding_key", "set_master_blinding_key",
   "start_threads", "get_wallet_hash_id", "remove_account"]

/-- How a dispatched method validates its input, as read off the
corresponding branch of handle_call in the source: rawField when the handler
extracts an individual named field of the payload directly (indexing the
JSON value), wholeInput when it reads the entire payload as one string,
fullSchema when the payload is deserialized against the operation's typed
request shape (or handed whole to the typed operation), and noInput when the
branch ignores the payload. -/
inductive InputValidation where
  | rawField
  | wholeInput
  | fullSchema
  | noInput
deriving DecidableEq

/-- The validation style of each dispatched method, branch by branch from
the source (methods outside the table are mapped to noInput; they have no
handler). -/
def inputValidation : String → InputValidation
  | "poll_session" => .noInput
  | "connect" => .fullSchema
  | "disconnect" => .noInput
  | "login" => .fullSchema
  | "credentials_from_pin_data" => .fullSchema
  | "encrypt_with_pin" => .fullSchema
  | "get_block_height" => .noInput
  | "get_subaccount_nums" => .noInput
  | "get_subaccounts" => .noInput
  | "get_subaccount" => .rawField
  | "discover_subaccount" => .fullSchema
  | "get_subaccount_root_path" => .fullSchema
  | "get_subaccount_xpub" => .fullSchema
  | "create_subaccount" => .fullSchema
  | "get_next_subaccount" => .fullSchema
  | "rename_subaccount" => .fullSchema
  | "set_subaccount_hidden" => .fullSchema
  | "update_subaccount" => .fullSchema
  | "get_transactions" => .fullSchema
  | "get_transaction_hex" => .wholeInput
  | "get_transaction_details" => .wholeInput
  | "get_balance" => .fullSchema
  | "set_transaction_memo" => .rawField
  | "create_transaction" => .fullSchema
  | "sign_transaction" => .fullSchema
  | "send_transaction" => .fullSchema
  | "broadcast_transaction" => .wholeInput
  | "get_receive_address" => .fullSchema
  | "get_previous_addresses" => .fullSchema
  | "get_fee_estimates" => .noInput
  | "get_settings" => .noInput
  | "get_available_currencies" => .noInput
  | "change_settings" => .fullSchema
  | "get_unspent_outputs" => .fullSchema
  | "load_store" => .fullSchema
  | "get_master_blinding_key" => .noInput
  | "set_master_blinding_key" => .fullSchema
  | "start_threads" => .noInput
  | "get_wallet_hash_id" => .noInput
  | "remove_account" => .noInput
  | _ => .noInput

/-- Whether the tor/onion early return of determine_electrum_url fires:
use_tor is Some(true) and the onion url is present and non-empty. -/
def torBranchApplies (network : NetworkParameters) : Bool :=
  (network.use_tor == some true) &&
    (match network.electrum_onion_url with
     | some onion => !onion.isEmpty
     | none => false)

/- ### Concrete instances used to exercise the theorems -/

/-- A concrete resolvable network configuration. -/
def demoNetwork : NetworkParameters :=
  { use_tor := none, electrum_onion_url := none, electrum_url := some "e",
    electrum_tls := none, validate_domain := none, proxy := none }

/-- A concrete freshly constructed session over demoNetwork. -/
def demoSession : ElectrumSession :=
  { proxy := none, network := demoNetwork, url := .Plaintext "e",
    accounts := [], notify := NativeNotif.new, handles := [],
    user_wants_to_sync := false, last_network_call_succeeded := false,
    timeout := none, store := none, master_xpub := none, master_xprv := none,
    recent_spent_utxos := [] }

/-- A concrete collaborator assignment: every external operation is given a
simple deterministic behaviour (transaction construction is made to fail
with InsufficientFunds, the registry lookup echoes the index it was asked
for, the fee source produces one entry). -/
def demoCollab : Collaborators Unit Unit where
  poll_session s := (.ok .null, s)
  connect s _ := (.ok (.bool true), s)
  disconnect s := (.ok (.bool true), s)
  login s _ := (.ok .null, s)
  credentials_from_pin_data s _ := (.ok .null, s)
  encrypt_with_pin s _ := (.ok .null, s)
  get_block_height s := (.ok (.num 0), s)
  get_subaccount_nums s := (.ok (.arr []), s)
  get_subaccounts s := (.ok (.arr []), s)
  get_subaccount _ index := .ok (.num (Int.ofNat index))
  discover_subaccount s _ := (.ok .null, s)
  get_subaccount_root_path s _ := (.ok .null, s)
  get_subaccount_xpub s _ := (.ok .null, s)
  create_subaccount s _ := (.ok .null, s)
  get_next_subaccount s _ := (.ok (.num 0), s)
  rename_subaccount s _ := (.ok (.bool true), s)
  set_subaccount_hidden s _ := (.ok (.bool true), s)
  update_subaccount s _ := (.ok (.bool true), s)
  get_transactions s _ := (.ok [], s)
  get_transaction_hex _ _ := .ok "00"
  get_transaction_details s _ := (.ok .null, s)
  get_balance s _ := (.ok (.num 0), s)
  set_transaction_memo _ _ _ := .ok true
  parse_create_transaction _ := .ok ()
  create_transaction s _ := (.error .InsufficientFunds, s)
  tx_create_result_to_value _ := .null
  sign_transaction s _ := (.ok .null, s)
  send_transaction s _ := (.ok .null, s)
  broadcast_transaction s _ := (.ok (.str "txid"), s)
  get_receive_address s _ := (.ok .null, s)
  get_previous_addresses s _ := (.ok (.arr []), s)
  get_fee_estimates s := (.ok [(1000 : Nat)], s)
  get_settings s := (.ok .null, s)
  get_available_currencies s := (.ok (.arr []), s)
  change_settings s _ := (.ok (.bool true), s)
  get_unspent_outputs s _ := (.ok .null, s)
  load_store s _ := (.ok (.bool true), s)
  get_master_blinding_key s := (.ok .null, s)
  set_master_blinding_key s _ := (.ok (.bool true), s)
  start_threads s := (.ok .null, s)
  get_wallet_hash_id s := (.ok (.str "w"), s)
  remove_account s := (.ok (.bool true), s)

/-- The same collaborator assignment with a fee source that returns an empty
list. -/
def demoCollabNoFees : Collaborators Unit Unit :=
  { demoCollab with get_fee_estimates := fun s => (.ok [], s) }

/- ### Helper lemmas -/

theorem getKey_insertKey_self (fs : List (String × JValue)) (key : String) (x : JValue) :
    getKey (insertKey fs key x) key = some x := by
  induction fs with
  | nil => simp [insertKey, getKey]
  | cons p rest ih =>
    obtain ⟨k, v⟩ := p
    by_cases h : k = key
    · subst h
      simp [insertKey, getKey]
    · simp [insertKey, getKey, h, ih]

theorem getKey_insertKey_ne (fs : List (String × JValue)) (key other : String)
    (x : JValue) (h : other ≠ key) :
    getKey (insertKey fs key x) other = getKey fs other := by
  have hko' : ¬ key = other := fun hh => h hh.symm
  induction fs with
  | nil => simp [insertKey, getKey, hko']
  | cons p rest ih =>
    obtain ⟨k, v⟩ := p
    by_cases hk : k = key
    · subst hk
      simp [insertKey, getKey, hko']
    · by_cases hko : k = other
      · subst hko
        simp [insertKey, getKey, hk]
      · simp [insertKey, getKey, hk, hko, ih]

theorem determine_eq_fallback (network : NetworkParameters)
    (h : torBranchApplies network = false) :
    determine_electrum_url network = electrumUrlFallback network := by
  unfold torBranchApplies at h
  unfold determine_electrum_url
  by_cases htor : network.use_tor = some true
  · simp only [htor, beq_self_eq_true, Bool.true_and] at h
    cases honion : network.electrum_onion_url with
    | none => simp [htor, honion]
    | some onion =>
      rw [honion] at h
      have hemp : onion.isEmpty = true := by simpa using h
      simp [htor, honion, hemp]
  · have : (network.use_tor == some true) = false := by
      simpa using htor
    simp [htor]

/- ### Claim theorems -/

/-- Claim C3: whenever use_tor is Some(true) and the onion url is present and
non-empty, endpoint resolution returns Plaintext of the onion url, whatever
the values of electrum_tls, electrum_url and validate_domain (they are
arbitrary fields of the quantified configuration). -/
theorem determine_electrum_url_tor_branch (network : NetworkParameters)
    (onion : String)
    (htor : network.use_tor = some true)
    (honion : network.electrum_onion_url = some onion)
    (hne : onion ≠ "") :
    determine_electrum_url network = .ok (.Plaintext onion) := by
  have hemp : onion.isEmpty = false := by
    rw [Bool.eq_false_iff]
    intro hcontra
    exact hne ((String.isEmpty_iff onion).mp hcontra)
  unfold determine_electrum_url
  simp [htor, honion, hemp]

/-- Witness for C3: a concrete tor configuration with electrum_tls set and a
plain url also present still resolves to the onion address. -/
theorem determine_electrum_url_tor_branch_witness :
    determine_electrum_url
      { use_tor := some true, electrum_onion_url := some "abc.onion",
        electrum_url := some "https://x", electrum_tls := some true,
        validate_domain := some true, proxy := none }
      = .ok (.Plaintext "abc.onion") :=
  determine_electrum_url_tor_branch _ "abc.onion" rfl rfl (by decide)

/-- Claim C4: when the tor/onion branch does not fire, resolution fails with
the Generic (configuration) error "network url is missing" when electrum_url
is absent, and with the distinct message "network url is empty" of the same
error kind when it is the empty string. -/
theorem determine_electrum_url_config_error (network : NetworkParameters)
    (h : torBranchApplies network = false) :
    (network.electrum_url = none →
      determine_electrum_url network = .error (.Generic "network url is missing"))
    ∧ (network.electrum_url = some "" →
      determine_electrum_url network = .error (.Generic "network url is empty"))
    ∧ (Error.Generic "network url is missing").kind
        = (Error.Generic "network url is empty").kind := by
  rw [determine_eq_fallback network h]
  refine ⟨fun hurl => ?_, fun hurl => ?_, rfl⟩
  · simp [electrumUrlFallback, hurl]
  · simp [electrumUrlFallback, hurl]

/-- Witness for C4: with use_tor false, a missing url fails with "network url
is missing" and an empty url fails with "network url is empty". -/
theorem determine_electrum_url_config_error_witness :
    determine_electrum_url
      { use_tor := some false, electrum_onion_url := some "abc.onion",
        electrum_url := none, electrum_tls := none,
        validate_domain := none, proxy := none }
      = .error (.Generic "network url is missing")
    ∧ determine_electrum_url
      { use_tor := none, electrum_onion_url := none,
        electrum_url := some "", electrum_tls := some true,
        validate_domain := none, proxy := none }
      = .error (.Generic "network url is empty") :=
  ⟨(determine_electrum_url_config_error _ (by decide)).1 rfl,
   (determine_electrum_url_config_error _ (by decide)).2.1 rfl⟩

/-- Claim C5: when the tor/onion branch does not fire and electrum_url is
present and non-empty, resolution returns Tls(url, validate_domain, with
validate_domain defaulting to false when absent) if electrum_tls is true,
and Plaintext(url) if electrum_tls is false or absent. -/
theorem determine_electrum_url_plain_branch (network : NetworkParameters)
    (url : String)
    (h : torBranchApplies network = false)
    (hurl : network.electrum_url = some url)
    (hne : url ≠ "") :
    (network.electrum_tls = some true →
      determine_electrum_url network
        = .ok (.Tls url (network.validate_domain.getD false)))
    ∧ ((network.electrum_tls = some false ∨ network.electrum_tls = none) →
      determine_electrum_url network = .ok (.Plaintext url)) := by
  rw [determine_eq_fallback network h]
  constructor
  · intro htls
    simp [electrumUrlFallback, hurl, hne, htls]
  · rintro (htls | htls) <;> simp [electrumUrlFallback, hurl, hne, htls]

/-- Witness for C5: the concrete configuration of the spec's example,
electrum_tls true, validate_domain true, url "https://x", resolves to
Tls("https://x", true); and with electrum_tls absent the same url resolves
to Plaintext("https://x"). -/
theorem determine_electrum_url_plain_branch_witness :
    determine_electrum_url
      { use_tor := none, electrum_onion_url := none,
        electrum_url := some "https://x", electrum_tls := some true,
        validate_domain := some true, proxy := none }
      = .ok (.Tls "https://x" true)
    ∧ determine_electrum_url
      { use_tor := some false, electrum_onion_url := none,
        electrum_url := some "https://x", electrum_tls := none,
        validate_domain := none, proxy := none }
      = .ok (.Plaintext "https://x") :=
  ⟨(determine_electrum_url_plain_branch _ "https://x" (by decide) rfl
      (by decide)).1 rfl,
   (determine_electrum_url_plain_branch _ "https://x" (by decide) rfl
      (by decide)).2 (Or.inr rfl)⟩

/-- Claim C6: dispatching any method name outside the fixed table returns a
MethodNotFound error carrying that method string (rendered into the wire
error's message) and leaves the session state unchanged. -/
theorem handle_call_unknown_method {CreateTx TxCreateResult : Type}
    (c : Collaborators CreateTx TxCreateResult) (s : ElectrumSession)
    (method : String) (input : JValue)
    (h : method ∉ supportedMethods) :
    handle_call c s method input
      = (.error (jsonErrorOfError (.MethodNotFound method true)), s)
    ∧ (jsonErrorOfError (.MethodNotFound method true)).message
        = "method not found: " ++ method := by
  refine ⟨?_, rfl⟩
  rw [handle_call.eq_def]
  split <;> first
    | rfl
    | exact absurd (by decide) h

/-- Witness for C6: dispatching the unrecognized method "foo" against a
concrete session yields MethodNotFound and returns the state untouched. -/
theorem handle_call_unknown_method_witness :
    handle_call demoCollab demoSession "foo" .null
      = (.error (jsonErrorOfError (.MethodNotFound "foo" true)), demoSession)
    ∧ (jsonErrorOfError (.MethodNotFound "foo" true)).message
        = "method not found: " ++ "foo" :=
  handle_call_unknown_method demoCollab demoSession "foo" .null (by decide)

/-- Claim C8: the error translation at the wire boundary is a total function
of the error value alone: it always produces exactly the pair of the
Display message and the stable gdk code, equal inputs give equal outputs,
and the code depends only on the error's kind (every kind maps to exactly
one code). -/
theorem error_translation_function :
    (∀ e : Error,
      jsonErrorOfError e = { message := e.message, error := e.to_gdk_code })
    ∧ (∀ e₁ e₂ : Error, e₁ = e₂ → jsonErrorOfError e₁ = jsonErrorOfError e₂)
    ∧ (∀ e₁ e₂ : Error, e₁.kind = e₂.kind → e₁.to_gdk_code = e₂.to_gdk_code) := by
  refine ⟨fun e => rfl, fun e₁ e₂ hk => by rw [hk], fun e₁ e₂ hk => ?_⟩
  cases e₁ <;> cases e₂ <;> first
    | rfl
    | exact absurd hk (by simp [Error.kind])

/-- Witness for C8: two Generic errors with different messages share the
kind and hence the code, and the translation of a concrete error is the
concrete message/code pair. -/
theorem error_translation_function_witness :
    (Error.Generic "a").kind = (Error.Generic "b").kind
    ∧ (Error.Generic "a").to_gdk_code = (Error.Generic "b").to_gdk_code
    ∧ jsonErrorOfError .InsufficientFunds
        = { message := "insufficient funds", error := "id_insufficient_funds" } :=
  ⟨rfl,
   error_translation_function.2.2 (.Generic "a") (.Generic "b") rfl,
   (error_translation_function.1 .InsufficientFunds).trans rfl⟩

/-- Claim C9: session construction resolves the endpoint and, on success,
starts from the pristine state: empty account registry, empty spent-output
set, both flags false, no worker handles, and timeout, store, master_xpub
and master_xprv absent; a resolution failure is propagated (through the
boundary error translation) and no session is produced. -/
theorem electrum_session_new_spec (socksify : Option String → Option String)
    (network : NetworkParameters) :
    (∀ url, determine_electrum_url network = .ok url →
      ∃ sess, ElectrumSession.new socksify network = .ok sess
        ∧ sess.url = url
        ∧ sess.network = network
        ∧ sess.proxy = socksify network.proxy
        ∧ sess.accounts = []
        ∧ sess.recent_spent_utxos = []
        ∧ sess.user_wants_to_sync = false
        ∧ sess.last_network_call_succeeded = false
        ∧ sess.handles = []
        ∧ sess.timeout = none
        ∧ sess.store = none
        ∧ sess.master_xpub = none
        ∧ sess.master_xprv = none)
    ∧ (∀ e, determine_electrum_url network = .error e →
      ElectrumSession.new socksify network = .error (jsonErrorOfError e)) := by
  constructor
  · intro url hres
    have hnew : ElectrumSession.new socksify network = .ok {
        proxy := socksify network.proxy, network := network, url := url,
        accounts := [], notify := NativeNotif.new, handles := [],
        user_wants_to_sync := false, last_network_call_succeeded := false,
        timeout := none, store := none, master_xpub := none,
        master_xprv := none, recent_spent_utxos := [] } := by
      unfold ElectrumSession.new
      rw [hres]
    exact ⟨_, hnew, rfl, rfl, rfl, rfl, rfl, rfl, rfl, rfl, rfl, rfl, rfl, rfl⟩
  · intro e hres
    unfold ElectrumSession.new
    rw [hres]

/-- Witness for C9: a concrete resolvable configuration constructs the
pristine session, and the all-absent configuration propagates the
resolution error. -/
theorem electrum_session_new_spec_witness :
    (∃ sess,
      ElectrumSession.new id
        { use_tor := none, electrum_onion_url := none,
          electrum_url := some "blockstream.info:700", electrum_tls := some true,
          validate_domain := some true, proxy := none }
        = .ok sess
      ∧ sess.url = .Tls "blockstream.info:700" true
      ∧ sess.network =
        { use_tor := none, electrum_onion_url := none,
          electrum_url := some "blockstream.info:700", electrum_tls := some true,
          validate_domain := some true, proxy := none }
      ∧ sess.proxy = id (Option.none (α := String))
      ∧ sess.accounts = []
      ∧ sess.recent_spent_utxos = []
      ∧ sess.user_wants_to_sync = false
      ∧ sess.last_network_call_succeeded = false
      ∧ sess.handles = []
      ∧ sess.timeout = none
      ∧ sess.store = none
      ∧ sess.master_xpub = none
      ∧ sess.master_xprv = none)
    ∧ ElectrumSession.new id
        { use_tor := none, electrum_onion_url := none, electrum_url := none,
          electrum_tls := none, validate_domain := none, proxy := none }
        = .error (jsonErrorOfError (.Generic "network url is missing")) :=
  ⟨(electrum_session_new_spec id _).1 (.Tls "blockstream.info:700" true) rfl,
   (electrum_session_new_spec id _).2 (.Generic "network url is missing") rfl⟩

/-- Claim C1: once the input deserializes into a transaction spec (a JSON
object, as serde struct deserialization requires), a construction failure is
folded into a success result: dispatch returns Ok of the original input with
an added "error" field holding the failure's stable gdk code (all other
fields echoed unchanged), never a hard wire error; a construction success
returns Ok of the serialized constructed transaction. -/
theorem create_transaction_soft_failure {CreateTx TxCreateResult : Type}
    (c : Collaborators CreateTx TxCreateResult) (s : ElectrumSession)
    (fields : List (String × JValue)) (tx : CreateTx)
    (hp : c.parse_create_transaction (.obj fields) = .ok tx) :
    (∀ err s₂, c.create_transaction s tx = (.error err, s₂) →
      handle_call c s "create_transaction" (.obj fields)
        = (.ok (.obj (insertKey fields "error" (.str err.to_gdk_code))), s₂)
      ∧ (JValue.obj (insertKey fields "error" (.str err.to_gdk_code))).getIdx "error"
          = .str err.to_gdk_code
      ∧ ∀ k, k ≠ "error" →
          (JValue.obj (insertKey fields "error" (.str err.to_gdk_code))).getIdx k
            = (JValue.obj fields).getIdx k)
    ∧ (∀ v s₂, c.create_transaction s tx = (.ok v, s₂) →
      handle_call c s "create_transaction" (.obj fields)
        = (.ok (c.tx_create_result_to_value v), s₂))
    ∧ (∃ out s₂,
      handle_call c s "create_transaction" (.obj fields) = (.ok out, s₂)) := by
  have hred : handle_call c s "create_transaction" (.obj fields)
      = (intoJsonError (create_transaction c s (.obj fields)).1,
         (create_transaction c s (.obj fields)).2) := rfl
  refine ⟨?_, ?_, ?_⟩
  · intro err s₂ hcc
    have hc : create_transaction c s (.obj fields)
        = (.ok ((JValue.obj fields).setIdx "error" (.str err.to_gdk_code)), s₂) := by
      unfold create_transaction
      rw [hp]
      dsimp only
      rw [hcc]
    refine ⟨?_, ?_, ?_⟩
    · rw [hred, hc]
      rfl
    · simp [JValue.getIdx, getKey_insertKey_self]
    · intro k hk
      simp [JValue.getIdx, getKey_insertKey_ne fields "error" k _ hk]
  · intro v s₂ hcc
    have hc : create_transaction c s (.obj fields)
        = (.ok (c.tx_create_result_to_value v), s₂) := by
      unfold create_transaction
      rw [hp]
      dsimp only
      rw [hcc]
    rw [hred, hc]
    rfl
  · rcases hcc : c.create_transaction s tx with ⟨r, s₂⟩
    cases r with
    | error err =>
      have hc : create_transaction c s (.obj fields)
          = (.ok ((JValue.obj fields).setIdx "error" (.str err.to_gdk_code)), s₂) := by
        unfold create_transaction
        rw [hp]
        dsimp only
        rw [hcc]
      exact ⟨_, s₂, by rw [hred, hc]; rfl⟩
    | ok v =>
      have hc : create_transaction c s (.obj fields)
          = (.ok (c.tx_create_result_to_value v), s₂) := by
        unfold create_transaction
        rw [hp]
        dsimp only
        rw [hcc]
      exact ⟨_, s₂, by rw [hred, hc]; rfl⟩

/-- Witness for C1: with a collaborator whose construction fails with
InsufficientFunds, dispatching create_transaction on a concrete object
returns Ok echoing the object plus the "error" code field. -/
theorem create_transaction_soft_failure_witness :
    handle_call demoCollab demoSession "create_transaction"
        (.obj [("addressees", .arr [])])
      = (.ok (.obj [("addressees", .arr []),
          ("error", .str "id_insufficient_funds")]), demoSession) :=
  ((create_transaction_soft_failure demoCollab demoSession
      [("addressees", .arr [])] () rfl).1 .InsufficientFunds demoSession rfl).1

/-- Claim C2: whatever list of fee estimates the collaborator produces, the
get_fee_estimates dispatch path fails hard with "Expected at least one
feerate" on an empty list and returns the object with key "fees" holding
the serialized list otherwise; in particular a single entry e yields the
one-element fees array. -/
theorem get_fee_estimates_dispatch {CreateTx TxCreateResult : Type}
    (c : Collaborators CreateTx TxCreateResult) (s : ElectrumSession)
    (input : JValue) (fees : List FeeEstimate) (s₂ : ElectrumSession)
    (h : c.get_fee_estimates s = (.ok fees, s₂)) :
    (fees = [] → handle_call c s "get_fee_estimates" input
      = (.error (JsonError.new "Expected at least one feerate"), s₂))
    ∧ (fees ≠ [] → handle_call c s "get_fee_estimates" input
      = (.ok (.obj [("fees", .arr (fees.map FeeEstimate.toValue))]), s₂))
    ∧ (∀ e, fees = [e] → handle_call c s "get_fee_estimates" input
      = (.ok (.obj [("fees", .arr [FeeEstimate.toValue e])]), s₂)) := by
  have hred : handle_call c s "get_fee_estimates" input
      = (fee_estimate_values fees, s₂) := by
    show (match c.get_fee_estimates s with
          | (.ok x, s₂) => (fee_estimate_values x, s₂)
          | (.error e, s₂) => (.error (jsonErrorOfError e), s₂)) = _
    rw [h]
  refine ⟨fun he => ?_, fun hne => ?_, fun e he => ?_⟩
  · subst he
    rw [hred]
    rfl
  · have hemp : fees.isEmpty = false := by
      cases fees with
      | nil => exact absurd rfl hne
      | cons a l => rfl
    rw [hred]
    simp [fee_estimate_values, hemp]
  · subst he
    rw [hred]
    rfl

/-- Witness for C2: a one-entry fee list dispatches to the one-element fees
object, and an empty fee list dispatches to the hard error. -/
theorem get_fee_estimates_dispatch_witness :
    handle_call demoCollab demoSession "get_fee_estimates" .null
      = (.ok (.obj [("fees", .arr [.num 1000])]), demoSession)
    ∧ handle_call demoCollabNoFees demoSession "get_fee_estimates" .null
      = (.error (JsonError.new "Expected at least one feerate"), demoSession) :=
  ⟨(get_fee_estimates_dispatch demoCollab demoSession .null
      [(1000 : Nat)] demoSession rfl).2.2 (1000 : Nat) rfl,
   (get_fee_estimates_dispatch demoCollabNoFees demoSession .null
      [] demoSession rfl).1 rfl⟩

/-- Claim C7: dispatching set_transaction_memo validates the raw "txid" and
"memo" fields in order, failing with the two method-specific messages, and
returns a JSON boolean on success; and exactly two of the dispatched
methods (get_subaccount and set_transaction_memo) validate their input by
extracting a single raw field of the payload. -/
theorem set_transaction_memo_validation {CreateTx TxCreateResult : Type}
    (c : Collaborators CreateTx TxCreateResult) (s : ElectrumSession) :
    (∀ input : JValue, (input.getIdx "txid").asStr = none →
      handle_call c s "set_transaction_memo" input
        = (.error (JsonError.new "set_transaction_memo: missing txid"), s))
    ∧ (∀ input txid, (input.getIdx "txid").asStr = some txid →
        (input.getIdx "memo").asStr = none →
      handle_call c s "set_transaction_memo" input
        = (.error (JsonError.new "set_transaction_memo: missing memo"), s))
    ∧ (∀ input txid memo b, (input.getIdx "txid").asStr = some txid →
        (input.getIdx "memo").asStr = some memo →
        c.set_transaction_memo s txid memo = .ok b →
      handle_call c s "set_transaction_memo" input = (.ok (.bool b), s))
    ∧ supportedMethods.filter (fun m => inputValidation m = .rawField)
      = ["get_subaccount", "set_transaction_memo"] := by
  have hred : ∀ input, handle_call c s "set_transaction_memo" input
      = (set_transaction_memo c s input, s) := fun _ => rfl
  refine ⟨fun input h₁ => ?_, fun input txid h₁ h₂ => ?_,
    fun input txid memo b h₁ h₂ h₃ => ?_, by rfl⟩
  · rw [hred]
    unfold set_transaction_memo
    rw [h₁]
  · rw [hred]
    unfold set_transaction_memo
    rw [h₁]
    dsimp only
    rw [h₂]
  · rw [hred]
    unfold set_transaction_memo
    rw [h₁]
    dsimp only
    rw [h₂]
    dsimp only
    rw [h₃]

/-- Witness for C7: a concrete payload without txid, one with txid but
without memo, and a complete one, dispatched against a collaborator that
accepts the memo. -/
theorem set_transaction_memo_validation_witness :
    handle_call demoCollab demoSession "set_transaction_memo" (.obj [])
      = (.error (JsonError.new "set_transaction_memo: missing txid"), demoSession)
    ∧ handle_call demoCollab demoSession "set_transaction_memo"
        (.obj [("txid", .str "aa")])
      = (.error (JsonError.new "set_transaction_memo: missing memo"), demoSession)
    ∧ handle_call demoCollab demoSession "set_transaction_memo"
        (.obj [("txid", .str "aa"), ("memo", .str "note")])
      = (.ok (.bool true), demoSession) :=
  ⟨(set_transaction_memo_validation demoCollab demoSession).1 (.obj []) rfl,
   (set_transaction_memo_validation demoCollab demoSession).2.1
     (.obj [("txid", .str "aa")]) "aa" rfl rfl,
   (set_transaction_memo_validation demoCollab demoSession).2.2.1
     (.obj [("txid", .str "aa"), ("memo", .str "note")]) "aa" "note" true rfl rfl rfl⟩

/-- Claim C10: every payload whose "subaccount" field is a number
representable as a u64 passes the raw-field validation (in particular
values at least 2 to the 32nd are not rejected), and the registry is
queried at the index reduced modulo 2 to the 32nd (the `as u32` cast), so
two payloads congruent modulo 2 to the 32nd dispatch identically. -/
theorem get_subaccount_truncation {CreateTx TxCreateResult : Type}
    (c : Collaborators CreateTx TxCreateResult) (s : ElectrumSession) :
    (∀ n : Nat, n < 2 ^ 64 →
      ((JValue.obj [("subaccount", .num (Int.ofNat n))]).getIdx "subaccount").asU64
        = some n
      ∧ handle_call c s "get_subaccount" (.obj [("subaccount", .num (Int.ofNat n))])
        = (intoJsonError (c.get_subaccount s (n % 2 ^ 32)), s))
    ∧ (∀ n₁ n₂ : Nat, n₁ < 2 ^ 64 → n₂ < 2 ^ 64 → n₁ % 2 ^ 32 = n₂ % 2 ^ 32 →
      handle_call c s "get_subaccount" (.obj [("subaccount", .num (Int.ofNat n₁))])
        = handle_call c s "get_subaccount" (.obj [("subaccount", .num (Int.ofNat n₂))])) := by
  have heq : ∀ (input : JValue) (idx : Nat),
      (input.getIdx "subaccount").asU64 = some idx →
      handle_call c s "get_subaccount" input
        = (intoJsonError (c.get_subaccount s (idx % 2 ^ 32)), s) := by
    intro input idx h
    have hred : handle_call c s "get_subaccount" input
        = (intoJsonError (get_subaccount c s input), s) := rfl
    rw [hred]
    unfold get_subaccount
    rw [h]
  have hval : ∀ n : Nat, n < 2 ^ 64 →
      ((JValue.obj [("subaccount", .num (Int.ofNat n))]).getIdx "subaccount").asU64
        = some n := by
    intro n hn
    have hidx : (JValue.obj [("subaccount", .num (Int.ofNat n))]).getIdx "subaccount"
        = .num (Int.ofNat n) := by
      simp [JValue.getIdx, getKey]
    rw [hidx]
    simp only [JValue.asU64]
    rw [if_pos]
    · simp
    · refine ⟨Int.ofNat_nonneg n, ?_⟩
      exact Int.ofNat_lt.mpr hn
  refine ⟨fun n hn => ⟨hval n hn, heq _ n (hval n hn)⟩,
    fun n₁ n₂ h₁ h₂ hcong => ?_⟩
  rw [heq _ n₁ (hval n₁ h₁), heq _ n₂ (hval n₂ h₂), hcong]

/-- Witness for C10: the index 2 to the 32nd plus five is accepted and
dispatches exactly like the index five; against the echoing registry it
returns the truncated index five. -/
theorem get_subaccount_truncation_witness :
    handle_call demoCollab demoSession "get_subaccount"
        (.obj [("subaccount", .num (Int.ofNat (2 ^ 32 + 5)))])
      = (.ok (.num 5), demoSession)
    ∧ handle_call demoCollab demoSession "get_subaccount"
        (.obj [("subaccount", .num (Int.ofNat (2 ^ 32 + 5)))])
      = handle_call demoCollab demoSession "get_subaccount"
        (.obj [("subaccount", .num (Int.ofNat 5))]) := by
  constructor
  · have h := ((get_subaccount_truncation demoCollab demoSession).1
      (2 ^ 32 + 5) (by norm_num)).2
    rw [h]
    rfl
  · exact (get_subaccount_truncation demoCollab demoSession).2
      (2 ^ 32 + 5) 5 (by norm_num) (by norm_num) (by norm_num)

end Gdk
